import Mathlib

/-!
Verification of `evaluate_moving_average_strategy` from
`examples/optimize_moving_average.py`.

The function scores a moving-average crossover strategy on an OHLCV
dataframe.  We embed it shallowly:

* Python/numpy double values flowing through the pandas pipeline are
  modelled by `PFloat`: NaN, the two infinities, or a finite value with an
  exact rational payload.  Arithmetic follows the IEEE-754 special-value
  rules (NaN propagates, `inf - inf = NaN`, `0 * inf = NaN`, finite/0 is a
  signed infinity or NaN, finite/inf is 0).  Finite arithmetic is kept
  exact (rational) rather than rounded; every claim proved here is about
  branch structure and value classification, which rounding does not move.
  The model has no negative zero: `0` plays the role of both IEEE zeros.
* The dataframe is its `"close"` column (the only column the function
  reads) plus the remaining, unread columns.  Row labels are positions:
  every selection and alignment in the source is order-preserving over the
  same index, so label identity never matters, only position.
* Fallible Python operations (missing dict keys, `int(...)` on
  non-numeric values, pandas rejecting a negative rolling window)
  return `Except PyError`.
-/

/-- An IEEE-754-style scalar: NaN, an infinity, or a finite value carried
exactly as a rational. -/
inductive PFloat where
  | nan : PFloat
  | inf : PFloat
  | ninf : PFloat
  | fin : ℚ → PFloat
deriving DecidableEq

namespace PFloat

/-- NaN test (Python `math.isnan` / the NaN-skipping in pandas). -/
def isNaN : PFloat → Bool
  | .nan => true
  | _ => false

/-- Finite-value test: true exactly on `fin` values. -/
def isFinite : PFloat → Bool
  | .fin _ => true
  | _ => false

/-- IEEE addition on special values; exact rational addition on finite ones. -/
def add : PFloat → PFloat → PFloat
  | .nan, _ => .nan
  | _, .nan => .nan
  | .inf, .ninf => .nan
  | .ninf, .inf => .nan
  | .inf, _ => .inf
  | _, .inf => .inf
  | .ninf, _ => .ninf
  | _, .ninf => .ninf
  | .fin a, .fin b => .fin (a + b)

/-- IEEE negation. -/
def neg : PFloat → PFloat
  | .nan => .nan
  | .inf => .ninf
  | .ninf => .inf
  | .fin a => .fin (-a)

/-- Subtraction, `x - y = x + (-y)` (exact on finite values). -/
def sub (x y : PFloat) : PFloat := x.add y.neg

/-- IEEE multiplication: NaN propagates, `0 * inf = NaN`, signs multiply. -/
def mul : PFloat → PFloat → PFloat
  | .nan, _ => .nan
  | _, .nan => .nan
  | .inf, .inf => .inf
  | .inf, .ninf => .ninf
  | .ninf, .inf => .ninf
  | .ninf, .ninf => .inf
  | .inf, .fin b => if 0 < b then .inf else if b < 0 then .ninf else .nan
  | .fin a, .inf => if 0 < a then .inf else if a < 0 then .ninf else .nan
  | .ninf, .fin b => if 0 < b then .ninf else if b < 0 then .inf else .nan
  | .fin a, .ninf => if 0 < a then .ninf else if a < 0 then .inf else .nan
  | .fin a, .fin b => .fin (a * b)

/-- IEEE division: NaN propagates, `inf/inf = NaN`, `finite/inf = 0`,
`finite/0` is a signed infinity (`0/0 = NaN`).  With no negative zero in
the model, a finite divisor's sign decides the sign of an infinite
quotient. -/
def div : PFloat → PFloat → PFloat
  | .nan, _ => .nan
  | _, .nan => .nan
  | .inf, .inf => .nan
  | .inf, .ninf => .nan
  | .ninf, .inf => .nan
  | .ninf, .ninf => .nan
  | .inf, .fin b => if b < 0 then .ninf else .inf
  | .ninf, .fin b => if b < 0 then .inf else .ninf
  | .fin _, .inf => .fin 0
  | .fin _, .ninf => .fin 0
  | .fin a, .fin b =>
    if b = 0 then (if a = 0 then .nan else if 0 < a then .inf else .ninf)
    else .fin (a / b)

/-- IEEE strict less-than: any comparison involving NaN is false. -/
def lt : PFloat → PFloat → Bool
  | .nan, _ => false
  | _, .nan => false
  | .inf, _ => false
  | .ninf, .ninf => false
  | .ninf, _ => true
  | .fin _, .ninf => false
  | .fin a, .fin b => decide (a < b)
  | .fin _, .inf => true

/-- IEEE strict greater-than. -/
def gt (x y : PFloat) : Bool := lt y x

end PFloat

/-- A Python value that can appear as a parameter entry in the `params`
dict handed to the evaluator.  The source inspects an entry only through
`isinstance(entry, dict)`, `entry["value"]` and `int(...)`, so what
matters about an entry is: numeric scalar, dict whose `"value"` is a
numeric scalar, dict whose `"value"` is some non-numeric object, dict
without a `"value"` key, or any other non-numeric object. -/
inductive ParamVal where
  | num : PFloat → ParamVal
  | wrapped : PFloat → ParamVal
  | wrappedBad : ParamVal
  | emptyDict : ParamVal
  | other : ParamVal
deriving DecidableEq

/-- The Python exceptions the embedded fragment can raise. -/
inductive PyError where
  | keyError : PyError
  | valueError : PyError
  | typeError : PyError
  | overflowError : PyError
deriving DecidableEq

deriving instance DecidableEq for Except

/-- The `params` dict: an association list with unique keys (Python dict
semantics; `lookup` finds the entry for a key). -/
abbrev Params := List (String × ParamVal)

/-- Python `int(x)` on a numeric value: truncation toward zero on finite
floats (and the identity on ints); `int(nan)` raises `ValueError`,
`int(±inf)` raises `OverflowError`. -/
def pyInt : PFloat → Except PyError ℤ
  | .nan => .error .valueError
  | .inf => .error .overflowError
  | .ninf => .error .overflowError
  | .fin q => .ok (q.num.tdiv (q.den : ℤ))

/-- One parameter extraction, mirroring
`int(params[name]["value"]) if isinstance(params[name], dict) else int(params[name])`:
a missing key raises `KeyError`, a dict without `"value"` raises
`KeyError`, `int` of a non-numeric object raises `TypeError`. -/
def extractPeriod (params : Params) (name : String) : Except PyError ℤ :=
  match params.lookup name with
  | none => .error .keyError
  | some (.wrapped f) => pyInt f
  | some .wrappedBad => .error .typeError
  | some .emptyDict => .error .keyError
  | some (.num f) => pyInt f
  | some .other => .error .typeError

/-- The OHLCV dataframe.  The evaluator reads only the `"close"` column;
the remaining columns (open/high/low/volume and any extras) are carried
untouched in `other`.  All columns of a dataframe share the row count, so
`len(data)` is the length of `close`. -/
structure DataFrame where
  close : List PFloat
  other : List (String × List PFloat)
deriving DecidableEq

/-- `len(data)`: the number of rows. -/
def DataFrame.len (d : DataFrame) : ℕ := d.close.length

/-- Mean of one rolling window (pandas default `min_periods = window`):
NaN as soon as the window contains a NaN, otherwise the exact mean. -/
def windowMean (xs : List PFloat) : PFloat :=
  if xs.any PFloat.isNaN then .nan
  else (xs.foldl PFloat.add (.fin 0)).div (.fin (xs.length : ℚ))

/-- `Series.rolling(window=w).mean()`: position `i` holds NaN while fewer
than `w` observations are available, and otherwise the mean of the window
ending at `i`. -/
def rollingMean (w : ℕ) (xs : List PFloat) : List PFloat :=
  (List.range xs.length).map fun i =>
    if i + 1 < w then .nan
    else windowMean ((xs.drop (i + 1 - w)).take w)

/-- `Series.rolling(window=w).mean()` including pandas' window validation:
a negative window is rejected (`ValueError`, "window must be an integer 0
or greater") before any computation; `window = 0` is accepted and yields
an all-NaN series (every window is empty, and the mean of an empty window
is `0/0 = NaN` in `windowMean`). -/
def rollingMeanE (w : ℤ) (xs : List PFloat) : Except PyError (List PFloat) :=
  if w < 0 then .error .valueError
  else .ok (rollingMean w.toNat xs)

/-- `slow_ma.dropna().index`: the positions of the non-NaN entries, in
order. -/
def validIdx (xs : List PFloat) : List ℕ :=
  (List.range xs.length).filter fun i => !(xs.getD i .nan).isNaN

/-- Label-based selection `series[idx]` / `data.loc[idx, "close"]`: the
entries of `xs` at the listed positions, in the listed order. -/
def selectAt (xs : List PFloat) (idx : List ℕ) : List PFloat :=
  idx.map fun i => xs.getD i .nan

/-- The two masked assignments
`signals[fast_ma > slow_ma] = 1; signals[fast_ma < slow_ma] = -1` on a
series initialized to `0`: the masks are disjoint, so each position is
`1`, `-1`, or the untouched `0`; comparisons involving NaN are false and
leave the `0`. -/
def signalsOf (fastSel slowSel : List PFloat) : List PFloat :=
  List.zipWith
    (fun f s =>
      if PFloat.gt f s then .fin 1
      else if PFloat.lt f s then .fin (-1)
      else .fin 0)
    fastSel slowSel

/-- `Series.shift(1)`: NaN in front, every value moved one position down. -/
def shift1 (xs : List PFloat) : List PFloat :=
  (List.range xs.length).map fun i =>
    if i = 0 then .nan else xs.getD (i - 1) .nan

/-- `Series.pct_change()`, which pandas computes as
`self / self.shift(1) - 1`.  (The default NaN forward-fill never acts
here: the series this is applied to has no NaN entries, each selected
position having a non-NaN slow moving average and hence a non-NaN close.) -/
def pctChange (xs : List PFloat) : List PFloat :=
  List.zipWith (fun a b => (a.div b).sub (.fin 1)) xs (shift1 xs)

/-- `Series.dropna()`: keep the non-NaN entries, in order. -/
def dropNa (xs : List PFloat) : List PFloat :=
  xs.filter fun x => !x.isNaN

/-- Left-to-right sum of a series (IEEE addition, starting from 0). -/
def listSum (xs : List PFloat) : PFloat :=
  xs.foldl PFloat.add (.fin 0)

/-- `Series.mean()`: sum over count (`NaN` on the empty series via `0/0`). -/
def listMean (xs : List PFloat) : PFloat :=
  (listSum xs).div (.fin (xs.length : ℚ))

/-- `Series.var()` with the pandas default `ddof = 1`:
`Σ (x - mean)² / (n - 1)` (`NaN` for `n ≤ 1` via division by zero). -/
def listVar (xs : List PFloat) : PFloat :=
  (listSum (xs.map fun x => (x.sub (listMean xs)).mul (x.sub (listMean xs)))).div
    (.fin ((xs.length - 1 : ℕ) : ℚ))

/-- The guard `strategy_returns.std() == 0` expressed on the variance:
`std = sqrt var` is zero exactly when the variance is (finite) zero. -/
def stdIsZero (var : PFloat) : Bool := var == .fin 0

/-- The value of the final expression
`np.sqrt(252) * strategy_returns.mean() / strategy_returns.std()` and of
the function's return.  `sqrt 252` is irrational, so the finite case is
kept symbolic: `val m v` denotes the real number `sqrt 252 * m / sqrt v`
(every construction below has `0 < v`, so this is finite), while `rat q`
denotes the exactly-rational float `q`. -/
inductive RFloat where
  | nan : RFloat
  | inf : RFloat
  | ninf : RFloat
  | rat : ℚ → RFloat
  | val : ℚ → ℚ → RFloat
deriving DecidableEq

/-- `np.isnan` on the result. -/
def RFloat.isNaNb : RFloat → Bool
  | .nan => true
  | _ => false

/-- `np.isinf` on the result (true for both infinities). -/
def RFloat.isInfb : RFloat → Bool
  | .inf => true
  | .ninf => true
  | _ => false

/-- Finite-result test: `rat` values are finite; `val m v` is finite
exactly when `v > 0` (then `sqrt v > 0` and `sqrt 252 * m / sqrt v` is a
finite real). -/
def RFloat.finiteB : RFloat → Bool
  | .rat _ => true
  | .val _ v => decide (0 < v)
  | _ => false

/-- `sharpe_ratio = np.sqrt(252) * strategy_returns.mean() / strategy_returns.std()`
as a function of the mean and the variance of `strategy_returns`
(`std = sqrt var`), classified by the IEEE special-value rules:
NaN anywhere gives NaN; `sqrt` of a negative or `-inf` variance is NaN;
a finite mean over an infinite std is `0`; an infinite mean over an
infinite std is NaN; an infinite mean over a nonnegative finite std keeps
its sign (`sqrt 252 > 0`); a finite mean over `std = 0` is a signed
infinity (NaN for mean `0`); and both finite with `var > 0` is the finite
real `sqrt 252 * mean / sqrt var`. -/
def sharpeValue : PFloat → PFloat → RFloat
  | .nan, _ => .nan
  | _, .nan => .nan
  | _, .ninf => .nan
  | .fin _, .inf => .rat 0
  | .inf, .inf => .nan
  | .ninf, .inf => .nan
  | .inf, .fin q => if q < 0 then .nan else .inf
  | .ninf, .fin q => if q < 0 then .nan else .ninf
  | .fin a, .fin q =>
    if q < 0 then .nan
    else if q = 0 then (if a = 0 then .nan else if 0 < a then .inf else .ninf)
    else .val a q

/-- The series `strategy_returns` after its `dropna()`: with
`valid_idx = slow_ma.dropna().index`,
`signals.shift(1) * data.loc[valid_idx, "close"].pct_change()` where
`signals` comes from the two masked assignments on the selected moving
averages.  The product aligns the two series on their common index
`valid_idx`, i.e. positionally. -/
def stratReturns (close : List PFloat) (fast_ma slow_ma : List PFloat) : List PFloat :=
  dropNa
    (List.zipWith PFloat.mul
      (shift1 (signalsOf (selectAt fast_ma (validIdx slow_ma))
                         (selectAt slow_ma (validIdx slow_ma))))
      (pctChange (selectAt close (validIdx slow_ma))))

/-- The body of `evaluate_moving_average_strategy` from the moving
averages on: drop the rows where the slow moving average is NaN, guard on
having at least 20 of them, build signals and strategy returns, guard on
at least 20 returns with nonzero standard deviation, compute the Sharpe
ratio, and replace a NaN or infinite Sharpe ratio by `-inf`. -/
def evalCore (close : List PFloat) (fast_ma slow_ma : List PFloat) : RFloat :=
  if (selectAt fast_ma (validIdx slow_ma)).length < 20 then .ninf
  else if (stratReturns close fast_ma slow_ma).length < 20
          ∨ stdIsZero (listVar (stratReturns close fast_ma slow_ma)) then .ninf
  else if (sharpeValue (listMean (stratReturns close fast_ma slow_ma))
            (listVar (stratReturns close fast_ma slow_ma))).isNaNb = true
          ∨ (sharpeValue (listMean (stratReturns close fast_ma slow_ma))
              (listVar (stratReturns close fast_ma slow_ma))).isInfb = true then .ninf
  else sharpeValue (listMean (stratReturns close fast_ma slow_ma))
        (listVar (stratReturns close fast_ma slow_ma))

/-- Shallow embedding of `evaluate_moving_average_strategy(data, params)`:
extract and `int`-convert the two periods (each may raise), return `-inf`
when `fast_period >= slow_period` or `len(data) < slow_period + 20`,
compute the two rolling means (pandas may reject the window), and hand
over to `evalCore`.  An `Except.error` is a Python exception escaping the
call; `Except.ok` is a normal return. -/
def evaluate_moving_average_strategy (data : DataFrame) (params : Params) :
    Except PyError RFloat :=
  match extractPeriod params "fast_period" with
  | .error e => .error e
  | .ok fast_period =>
  match extractPeriod params "slow_period" with
  | .error e => .error e
  | .ok slow_period =>
  if fast_period ≥ slow_period ∨ (data.len : ℤ) < slow_period + 20 then .ok .ninf
  else
  match rollingMeanE fast_period data.close with
  | .error e => .error e
  | .ok fast_ma =>
  match rollingMeanE slow_period data.close with
  | .error e => .error e
  | .ok slow_ma => .ok (evalCore data.close fast_ma slow_ma)

/-- State-passing form of the same function: the dataframe is threaded
through every step as the mutable-object state.  Each pandas operation in
the source (`rolling(...).mean()`, selection, `pct_change`, `shift`,
`dropna`, the fresh `pd.Series(0, ...)`) returns a new object and none
writes to `data`, so every branch hands the frame back unchanged. -/
def evaluateSt (data : DataFrame) (params : Params) :
    Except PyError RFloat × DataFrame :=
  match extractPeriod params "fast_period" with
  | .error e => (.error e, data)
  | .ok fast_period =>
  match extractPeriod params "slow_period" with
  | .error e => (.error e, data)
  | .ok slow_period =>
  if fast_period ≥ slow_period ∨ (data.len : ℤ) < slow_period + 20 then (.ok .ninf, data)
  else
  match rollingMeanE fast_period data.close with
  | .error e => (.error e, data)
  | .ok fast_ma =>
  match rollingMeanE slow_period data.close with
  | .error e => (.error e, data)
  | .ok slow_ma => (.ok (evalCore data.close fast_ma slow_ma), data)

/-- The module-level state of `optimize_moving_average.py` visible to a
call: the only module-level variable, `project_root` (assigned once at
import).  The function body reads and writes no module-level variable. -/
structure ModuleState where
  project_root : String
deriving DecidableEq

/-- One call to the evaluator in the context of the module state: the
body contains no global read or write, so the call is the pure function
applied to its arguments, with the module state handed back unchanged. -/
def evaluateCall (s : ModuleState) (data : DataFrame) (params : Params) :
    Except PyError RFloat × ModuleState :=
  (evaluate_moving_average_strategy data params, s)

/-- A sequence of evaluator calls threaded through the module state, in
order: the shape under which the optimizer core invokes the evaluator
repeatedly (and, interleaved, with different arguments). -/
def runCalls (s : ModuleState) : List (DataFrame × Params) →
    List (Except PyError RFloat) × ModuleState
  | [] => ([], s)
  | c :: rest =>
    let r := evaluateCall s c.1 c.2
    let rs := runCalls r.2 rest
    (r.1 :: rs.1, rs.2)

/-- Sample frame with no rows (any dataset works for the guard-level facts). -/
def emptyFrame : DataFrame := ⟨[], []⟩

/-- Sample assignment with `fast_period = 5 ≥ 3 = slow_period`. -/
def sampleParamsGe : Params :=
  [("fast_period", ParamVal.num (.fin 5)), ("slow_period", ParamVal.num (.fin 3))]

/-- Congruence of the evaluator in the parts of its input it actually
reads: the `"close"` column and the two extracted periods. -/
theorem evaluate_congr (d d' : DataFrame) (p p' : Params)
    (hc : d.close = d'.close)
    (hf : extractPeriod p "fast_period" = extractPeriod p' "fast_period")
    (hs : extractPeriod p "slow_period" = extractPeriod p' "slow_period") :
    evaluate_moving_average_strategy d p = evaluate_moving_average_strategy d' p' := by
  unfold evaluate_moving_average_strategy DataFrame.len
  rw [hf, hs, hc]

/-- C2: whenever both periods extract and convert to integers with
`fast_period >= slow_period`, the first guard returns `-inf`, whatever
the dataset holds. -/
theorem fast_ge_slow_returns_neg_inf (d : DataFrame) (p : Params) (fp sp : ℤ)
    (hf : extractPeriod p "fast_period" = .ok fp)
    (hs : extractPeriod p "slow_period" = .ok sp)
    (hge : fp ≥ sp) :
    evaluate_moving_average_strategy d p = .ok .ninf := by
  unfold evaluate_moving_average_strategy
  simp only [hf, hs]
  rw [if_pos (Or.inl hge)]

/-- Witness for C2 at `fast_period = 5`, `slow_period = 3` on the empty
frame. -/
theorem fast_ge_slow_returns_neg_inf_witness :
    extractPeriod sampleParamsGe "fast_period" = .ok 5
    ∧ extractPeriod sampleParamsGe "slow_period" = .ok 3
    ∧ (5 : ℤ) ≥ 3
    ∧ evaluate_moving_average_strategy emptyFrame sampleParamsGe = .ok .ninf :=
  ⟨by decide, by decide, by decide,
    fast_ge_slow_returns_neg_inf emptyFrame sampleParamsGe 5 3
      (by decide) (by decide) (by decide)⟩

/-- C6: the dataframe is never mutated — the state-passing form of the
call hands the frame back unchanged on every branch. -/
theorem dataset_not_mutated (d : DataFrame) (p : Params) :
    (evaluateSt d p).2 = d := by
  unfold evaluateSt
  repeat' split
  all_goals rfl

/-- C7: calls share no mutable state — any sequence of calls threaded
through the module state returns exactly the pure function's value on
each argument pair and leaves the module state as it was, so repeated
and interleaved calls cannot influence one another. -/
theorem no_shared_mutable_state_across_calls (s : ModuleState)
    (calls : List (DataFrame × Params)) :
    runCalls s calls =
      (calls.map fun c => evaluate_moving_average_strategy c.1 c.2, s) := by
  induction calls generalizing s with
  | nil => rfl
  | cons c rest ih => simp [runCalls, evaluateCall, ih]

/-- C8: determinism and non-interference — the result depends only on
the `"close"` column and the `"fast_period"`/`"slow_period"` entries.
Two calls whose inputs agree on exactly those parts return equal
results, whatever the other columns or extra assignment keys hold. -/
theorem result_depends_only_on_close_and_periods (d d' : DataFrame) (p p' : Params)
    (hc : d.close = d'.close)
    (hf : p.lookup "fast_period" = p'.lookup "fast_period")
    (hs : p.lookup "slow_period" = p'.lookup "slow_period") :
    evaluate_moving_average_strategy d p = evaluate_moving_average_strategy d' p' := by
  refine evaluate_congr d d' p p' hc ?_ ?_
  · unfold extractPeriod
    rw [hf]
  · unfold extractPeriod
    rw [hs]

/-- Witness for C8: same close column and period entries, different
volume column and an extra assignment key. -/
theorem result_depends_only_on_close_and_periods_witness :
    (DataFrame.mk [.fin 1, .fin 2] [("volume", [.fin 9, .fin 9])]).close
      = (DataFrame.mk [.fin 1, .fin 2] []).close
    ∧ ([("fast_period", ParamVal.num (.fin 2)), ("slow_period", ParamVal.num (.fin 5)),
        ("extra", ParamVal.other)] : Params).lookup "fast_period"
      = ([("slow_period", ParamVal.num (.fin 5)), ("fast_period", ParamVal.num (.fin 2))] :
          Params).lookup "fast_period"
    ∧ ([("fast_period", ParamVal.num (.fin 2)), ("slow_period", ParamVal.num (.fin 5)),
        ("extra", ParamVal.other)] : Params).lookup "slow_period"
      = ([("slow_period", ParamVal.num (.fin 5)), ("fast_period", ParamVal.num (.fin 2))] :
          Params).lookup "slow_period"
    ∧ evaluate_moving_average_strategy
        (DataFrame.mk [.fin 1, .fin 2] [("volume", [.fin 9, .fin 9])])
        [("fast_period", ParamVal.num (.fin 2)), ("slow_period", ParamVal.num (.fin 5)),
         ("extra", ParamVal.other)]
      = evaluate_moving_average_strategy (DataFrame.mk [.fin 1, .fin 2] [])
        [("slow_period", ParamVal.num (.fin 5)), ("fast_period", ParamVal.num (.fin 2))] :=
  ⟨rfl, rfl, rfl,
    result_depends_only_on_close_and_periods _ _ _ _ rfl rfl rfl⟩

/-- C5: a raw scalar period entry and a `{"value": ...}`-wrapped entry
holding the same scalar are interchangeable, for each parameter
independently and for both together. -/
theorem wrapped_params_equivalent (d : DataFrame) (p1 p2 : Params) (v1 v2 : PFloat)
    (h1f : p1.lookup "fast_period" = some (.num v1)
            ∨ p1.lookup "fast_period" = some (.wrapped v1))
    (h1s : p1.lookup "slow_period" = some (.num v2)
            ∨ p1.lookup "slow_period" = some (.wrapped v2))
    (h2f : p2.lookup "fast_period" = some (.num v1)
            ∨ p2.lookup "fast_period" = some (.wrapped v1))
    (h2s : p2.lookup "slow_period" = some (.num v2)
            ∨ p2.lookup "slow_period" = some (.wrapped v2)) :
    evaluate_moving_average_strategy d p1 = evaluate_moving_average_strategy d p2 := by
  refine evaluate_congr d d p1 p2 rfl ?_ ?_
  · unfold extractPeriod
    rcases h1f with h | h <;> rcases h2f with h2 | h2 <;> rw [h, h2]
  · unfold extractPeriod
    rcases h1s with h | h <;> rcases h2s with h2 | h2 <;> rw [h, h2]

/-- Witness for C5: raw `10`/`30` against wrapped `{"value": 10}` /
`{"value": 30}`. -/
theorem wrapped_params_equivalent_witness :
    (([("fast_period", ParamVal.num (.fin 10)), ("slow_period", ParamVal.num (.fin 30))] :
        Params).lookup "fast_period" = some (.num (.fin 10))
      ∨ ([("fast_period", ParamVal.num (.fin 10)), ("slow_period", ParamVal.num (.fin 30))] :
          Params).lookup "fast_period" = some (.wrapped (.fin 10)))
    ∧ (([("fast_period", ParamVal.wrapped (.fin 10)),
          ("slow_period", ParamVal.wrapped (.fin 30))] : Params).lookup "fast_period"
          = some (.num (.fin 10))
        ∨ ([("fast_period", ParamVal.wrapped (.fin 10)),
            ("slow_period", ParamVal.wrapped (.fin 30))] : Params).lookup "fast_period"
          = some (.wrapped (.fin 10)))
    ∧ evaluate_moving_average_strategy emptyFrame
        [("fast_period", ParamVal.num (.fin 10)), ("slow_period", ParamVal.num (.fin 30))]
      = evaluate_moving_average_strategy emptyFrame
        [("fast_period", ParamVal.wrapped (.fin 10)),
         ("slow_period", ParamVal.wrapped (.fin 30))] :=
  ⟨Or.inl rfl, Or.inr rfl,
    wrapped_params_equivalent emptyFrame _ _ (.fin 10) (.fin 30)
      (Or.inl rfl) (Or.inl rfl) (Or.inr rfl) (Or.inr rfl)⟩

/-- C9: period values are truncated toward zero by `int(...)` before
use — replacing each period entry by its truncation yields an identical
result; fractional periods are accepted, not rejected. -/
theorem periods_truncated_to_int (d : DataFrame) (p1 p2 : Params) (qf qs : ℚ)
    (h1f : p1.lookup "fast_period" = some (.num (.fin qf)))
    (h1s : p1.lookup "slow_period" = some (.num (.fin qs)))
    (h2f : p2.lookup "fast_period" = some (.num (.fin ((qf.num.tdiv (qf.den : ℤ) : ℤ) : ℚ))))
    (h2s : p2.lookup "slow_period" = some (.num (.fin ((qs.num.tdiv (qs.den : ℤ) : ℤ) : ℚ)))) :
    evaluate_moving_average_strategy d p1 = evaluate_moving_average_strategy d p2 := by
  refine evaluate_congr d d p1 p2 rfl ?_ ?_
  · unfold extractPeriod
    rw [h1f, h2f]
    unfold pyInt
    simp only [Rat.num_intCast, Rat.den_intCast, Nat.cast_one, Int.tdiv_one]
  · unfold extractPeriod
    rw [h1s, h2s]
    unfold pyInt
    simp only [Rat.num_intCast, Rat.den_intCast, Nat.cast_one, Int.tdiv_one]

/-- Witness for C9: `fast_period = 3.5` truncates to `3`,
`slow_period = 20.5` truncates to `20`. -/
theorem periods_truncated_to_int_witness :
    ([("fast_period", ParamVal.num (.fin (mkRat 7 2))),
      ("slow_period", ParamVal.num (.fin (mkRat 41 2)))] :
        Params).lookup "fast_period" = some (.num (.fin (mkRat 7 2)))
    ∧ ([("fast_period", ParamVal.num (.fin 3)), ("slow_period", ParamVal.num (.fin 20))] :
        Params).lookup "fast_period"
      = some (.num (.fin (((mkRat 7 2).num.tdiv (((mkRat 7 2).den : ℤ)) : ℤ) : ℚ)))
    ∧ evaluate_moving_average_strategy emptyFrame
        [("fast_period", ParamVal.num (.fin (mkRat 7 2))),
         ("slow_period", ParamVal.num (.fin (mkRat 41 2)))]
      = evaluate_moving_average_strategy emptyFrame
        [("fast_period", ParamVal.num (.fin 3)), ("slow_period", ParamVal.num (.fin 20))] :=
  ⟨rfl, by decide,
    periods_truncated_to_int emptyFrame _ _ (mkRat 7 2) (mkRat 41 2)
      rfl rfl (by decide) (by decide)⟩

/-- Counterexample to C1 as stated: on an assignment missing the
`"fast_period"` key — structurally invalid — the call raises `KeyError`
(escapes as an exception) instead of returning `-inf`; and on
`fast_period = -5 < -1 = slow_period` with 19 rows, both guards pass and
pandas rejects the negative rolling window with `ValueError`, so an
exception escapes there too. -/
theorem missing_key_raises :
    evaluate_moving_average_strategy emptyFrame [] = .error .keyError
    ∧ evaluate_moving_average_strategy emptyFrame [] ≠ .ok .ninf
    ∧ evaluate_moving_average_strategy ⟨List.replicate 19 (PFloat.fin 1), []⟩
        [("fast_period", ParamVal.num (.fin (-5))),
         ("slow_period", ParamVal.num (.fin (-1)))] = .error .valueError := by
  exact ⟨rfl, by decide, by decide⟩

/-- C1 amended: no exception escapes provided both period entries are
present and `int`-convertible and the converted `fast_period` is
non-negative (pandas accepts `window = 0`; only a negative window
raises) — under those hypotheses every remaining infeasibility is
reported through the return value, never raised. -/
theorem evaluate_total_on_wellformed_params (d : DataFrame) (p : Params) (fp sp : ℤ)
    (hf : extractPeriod p "fast_period" = .ok fp)
    (hs : extractPeriod p "slow_period" = .ok sp)
    (hfp : 0 ≤ fp) :
    (evaluate_moving_average_strategy d p).isOk = true := by
  unfold evaluate_moving_average_strategy
  simp only [hf, hs]
  split
  · rfl
  · next hguard =>
    push_neg at hguard
    unfold rollingMeanE
    rw [if_neg (by omega), if_neg (by omega)]
    rfl

/-- Witness for the amended C1 at `fast_period = 2`, `slow_period = 30`. -/
theorem evaluate_total_on_wellformed_params_witness :
    extractPeriod [("fast_period", ParamVal.num (.fin 2)),
      ("slow_period", ParamVal.num (.fin 30))] "fast_period" = .ok 2
    ∧ (0 : ℤ) ≤ 2
    ∧ (evaluate_moving_average_strategy emptyFrame
        [("fast_period", ParamVal.num (.fin 2)),
         ("slow_period", ParamVal.num (.fin 30))]).isOk = true :=
  ⟨by decide, by decide,
    evaluate_total_on_wellformed_params emptyFrame _ 2 30
      (by decide) (by decide) (by decide)⟩

/-- When both periods convert, the first guard does not fire and the
converted `fast_period` is non-negative, the call reaches the core
computation on the two rolling means (the slow window is then positive
since `slow_period > fast_period >= 0`). -/
theorem evaluate_reaches_core (d : DataFrame) (p : Params) (fp sp : ℤ)
    (hf : extractPeriod p "fast_period" = .ok fp)
    (hs : extractPeriod p "slow_period" = .ok sp)
    (hfp : 0 ≤ fp)
    (hg : ¬(fp ≥ sp ∨ (d.len : ℤ) < sp + 20)) :
    evaluate_moving_average_strategy d p =
      .ok (evalCore d.close (rollingMean fp.toNat d.close)
            (rollingMean sp.toNat d.close)) := by
  unfold evaluate_moving_average_strategy
  simp only [hf, hs]
  rw [if_neg hg]
  push_neg at hg
  unfold rollingMeanE
  rw [if_neg (by omega), if_neg (by omega)]

/-- C3: each of the enumerated infeasibility causes — too few rows, too
few valid moving-average points, too few strategy returns or zero
standard deviation, non-finite Sharpe ratio — produces the same
`.ok -inf` return, so the causes are indistinguishable in the result. -/
theorem infeasibility_collapse (d : DataFrame) (p : Params) (fp sp : ℤ)
    (hf : extractPeriod p "fast_period" = .ok fp)
    (hs : extractPeriod p "slow_period" = .ok sp) :
    ((d.len : ℤ) < sp + 20 → evaluate_moving_average_strategy d p = .ok .ninf)
    ∧ (0 ≤ fp →
        (selectAt (rollingMean fp.toNat d.close)
          (validIdx (rollingMean sp.toNat d.close))).length < 20 →
        evaluate_moving_average_strategy d p = .ok .ninf)
    ∧ (0 ≤ fp →
        ((stratReturns d.close (rollingMean fp.toNat d.close)
            (rollingMean sp.toNat d.close)).length < 20
          ∨ stdIsZero (listVar (stratReturns d.close (rollingMean fp.toNat d.close)
              (rollingMean sp.toNat d.close))) = true) →
        evaluate_moving_average_strategy d p = .ok .ninf)
    ∧ (0 ≤ fp →
        ((sharpeValue
            (listMean (stratReturns d.close (rollingMean fp.toNat d.close)
              (rollingMean sp.toNat d.close)))
            (listVar (stratReturns d.close (rollingMean fp.toNat d.close)
              (rollingMean sp.toNat d.close)))).isNaNb = true
          ∨ (sharpeValue
              (listMean (stratReturns d.close (rollingMean fp.toNat d.close)
                (rollingMean sp.toNat d.close)))
              (listVar (stratReturns d.close (rollingMean fp.toNat d.close)
                (rollingMean sp.toNat d.close)))).isInfb = true) →
        evaluate_moving_average_strategy d p = .ok .ninf) := by
  refine ⟨?_, ?_, ?_, ?_⟩
  · intro hlen
    unfold evaluate_moving_average_strategy
    simp only [hf, hs]
    rw [if_pos (Or.inr hlen)]
  · intro hfp hcount
    by_cases hg : fp ≥ sp ∨ (d.len : ℤ) < sp + 20
    · unfold evaluate_moving_average_strategy
      simp only [hf, hs]
      rw [if_pos hg]
    · rw [evaluate_reaches_core d p fp sp hf hs hfp hg]
      unfold evalCore
      rw [if_pos hcount]
  · intro hfp hcond
    by_cases hg : fp ≥ sp ∨ (d.len : ℤ) < sp + 20
    · unfold evaluate_moving_average_strategy
      simp only [hf, hs]
      rw [if_pos hg]
    · rw [evaluate_reaches_core d p fp sp hf hs hfp hg]
      unfold evalCore
      by_cases h1 : (selectAt (rollingMean fp.toNat d.close)
          (validIdx (rollingMean sp.toNat d.close))).length < 20
      · rw [if_pos h1]
      · rw [if_neg h1, if_pos hcond]
  · intro hfp hsharpe
    by_cases hg : fp ≥ sp ∨ (d.len : ℤ) < sp + 20
    · unfold evaluate_moving_average_strategy
      simp only [hf, hs]
      rw [if_pos hg]
    · rw [evaluate_reaches_core d p fp sp hf hs hfp hg]
      unfold evalCore
      by_cases h1 : (selectAt (rollingMean fp.toNat d.close)
          (validIdx (rollingMean sp.toNat d.close))).length < 20
      · rw [if_pos h1]
      · rw [if_neg h1]
        by_cases h2 : (stratReturns d.close (rollingMean fp.toNat d.close)
              (rollingMean sp.toNat d.close)).length < 20
            ∨ stdIsZero (listVar (stratReturns d.close (rollingMean fp.toNat d.close)
                (rollingMean sp.toNat d.close))) = true
        · rw [if_pos h2]
        · rw [if_neg h2, if_pos hsharpe]

/-- Witness for C3 on the empty frame with `fast_period = 1`,
`slow_period = 25`: the first cause fires there. -/
theorem infeasibility_collapse_witness :
    extractPeriod [("fast_period", ParamVal.num (.fin 1)),
      ("slow_period", ParamVal.num (.fin 25))] "fast_period" = .ok 1
    ∧ ((emptyFrame.len : ℤ) < 25 + 20 →
        evaluate_moving_average_strategy emptyFrame
          [("fast_period", ParamVal.num (.fin 1)),
           ("slow_period", ParamVal.num (.fin 25))] = .ok .ninf) :=
  ⟨by decide,
    (infeasibility_collapse emptyFrame _ 1 25 (by decide) (by decide)).1⟩

/-- A symbolic finite Sharpe value is only ever built with a positive
variance. -/
theorem sharpeValue_val_pos (m v : PFloat) (a q : ℚ)
    (h : sharpeValue m v = .val a q) : 0 < q := by
  cases m <;> cases v <;> simp only [sharpeValue] at h
  all_goals try split_ifs at h with h1 h2 h3 h4
  all_goals first
    | exact RFloat.noConfusion h
    | (injection h with ha hq
       subst hq
       exact lt_of_le_of_ne (not_lt.mp h1) (Ne.symm h2))

/-- C4: every normal return is either exactly `-inf` or finite — never
NaN and never `+inf`. -/
theorem ok_result_finite_or_neg_inf (d : DataFrame) (p : Params) (r : RFloat)
    (h : evaluate_moving_average_strategy d p = .ok r) :
    (r = .ninf ∨ r.finiteB = true) ∧ r ≠ .nan ∧ r ≠ .inf := by
  unfold evaluate_moving_average_strategy at h
  cases hf : extractPeriod p "fast_period" with
  | error e => rw [hf] at h; simp at h
  | ok fp =>
  rw [hf] at h
  cases hs : extractPeriod p "slow_period" with
  | error e => rw [hs] at h; simp at h
  | ok sp =>
  rw [hs] at h
  simp only [] at h
  split at h
  · obtain rfl : RFloat.ninf = r := by injection h
    exact ⟨Or.inl rfl, by simp, by simp⟩
  · cases hrf : rollingMeanE fp d.close with
    | error e => rw [hrf] at h; simp at h
    | ok fm =>
    rw [hrf] at h
    cases hrs : rollingMeanE sp d.close with
    | error e => rw [hrs] at h; simp at h
    | ok sm =>
    rw [hrs] at h
    obtain rfl : evalCore d.close fm sm = r := by injection h
    unfold evalCore
    split_ifs with h1 h2 h3
    · exact ⟨Or.inl rfl, by simp, by simp⟩
    · exact ⟨Or.inl rfl, by simp, by simp⟩
    · exact ⟨Or.inl rfl, by simp, by simp⟩
    · push_neg at h3
      obtain ⟨hnan, hinf⟩ := h3
      revert hnan hinf
      cases hsv : sharpeValue
          (listMean (stratReturns d.close fm sm)) (listVar (stratReturns d.close fm sm)) with
      | nan => intro hnan hinf; simp [RFloat.isNaNb] at hnan
      | inf => intro hnan hinf; simp [RFloat.isInfb] at hinf
      | ninf => intro hnan hinf; simp [RFloat.isInfb] at hinf
      | rat q => intro hnan hinf; exact ⟨Or.inr rfl, by simp, by simp⟩
      | val a q =>
        intro hnan hinf
        refine ⟨Or.inr ?_, by simp, by simp⟩
        simp only [RFloat.finiteB, decide_eq_true_eq]
        exact sharpeValue_val_pos _ _ _ _ hsv

/-- Witness for C4 at a concrete call returning `-inf`. -/
theorem ok_result_finite_or_neg_inf_witness :
    evaluate_moving_average_strategy emptyFrame sampleParamsGe = .ok .ninf
    ∧ (RFloat.ninf = RFloat.ninf ∨ RFloat.ninf.finiteB = true)
    ∧ RFloat.ninf ≠ RFloat.nan ∧ RFloat.ninf ≠ RFloat.inf :=
  ⟨by decide,
    (ok_result_finite_or_neg_inf emptyFrame sampleParamsGe .ninf (by decide)).1,
    (ok_result_finite_or_neg_inf emptyFrame sampleParamsGe .ninf (by decide)).2⟩

/-- Selection returns one entry per listed position. -/
theorem selectAt_length (xs : List PFloat) (idx : List ℕ) :
    (selectAt xs idx).length = idx.length := by
  unfold selectAt
  exact List.length_map idx _

/-- A left fold of IEEE additions over finite values, started from a
finite value, stays finite. -/
theorem foldl_add_fin (l : List PFloat) (h : ∀ x ∈ l, x.isFinite = true) :
    ∀ q : ℚ, ∃ r : ℚ, l.foldl PFloat.add (.fin q) = .fin r := by
  induction l with
  | nil => intro q; exact ⟨q, rfl⟩
  | cons x xs ih =>
    intro q
    have hx : x.isFinite = true := h x (by simp)
    have hxs : ∀ y ∈ xs, y.isFinite = true := fun y hy => h y (by simp [hy])
    cases x with
    | nan => simp [PFloat.isFinite] at hx
    | inf => simp [PFloat.isFinite] at hx
    | ninf => simp [PFloat.isFinite] at hx
    | fin a => simpa [PFloat.add] using ih hxs (q + a)

/-- The mean of a nonempty all-finite window is not NaN. -/
theorem windowMean_not_nan (l : List PFloat) (hne : l ≠ [])
    (h : ∀ x ∈ l, x.isFinite = true) :
    (windowMean l).isNaN = false := by
  have hany : l.any PFloat.isNaN = false := by
    rw [List.any_eq_false]
    intro x hx
    have hfx := h x hx
    cases x <;> simp_all [PFloat.isFinite, PFloat.isNaN]
  obtain ⟨r, hr⟩ := foldl_add_fin l h 0
  have hlen : (l.length : ℚ) ≠ 0 := by
    have h0 : l.length ≠ 0 := fun hz => hne (List.length_eq_zero.mp hz)
    exact Nat.cast_ne_zero.mpr h0
  unfold windowMean
  rw [hany]
  simp only [Bool.false_eq_true, if_false, hr]
  simp [PFloat.div, hlen, PFloat.isNaN]

/-- Entries of a rolling mean over an all-finite series: NaN exactly on
the warm-up prefix of length `w - 1`. -/
theorem rollingMean_getD_isNaN (w : ℕ) (xs : List PFloat) (hw : 1 ≤ w)
    (hfin : ∀ x ∈ xs, x.isFinite = true) (i : ℕ) (hi : i < xs.length) :
    ((rollingMean w xs).getD i .nan).isNaN = decide (i + 1 < w) := by
  unfold rollingMean
  rw [List.getD_eq_getElem?_getD, List.getElem?_map, List.getElem?_range hi]
  rw [Option.map_some', Option.getD_some]
  by_cases hc : i + 1 < w
  · simp [hc, PFloat.isNaN]
  · rw [if_neg hc, decide_eq_false hc]
    apply windowMean_not_nan
    · apply List.ne_nil_of_length_pos
      rw [List.length_take, List.length_drop, lt_min_iff]
      constructor <;> omega
    · intro x hx
      exact hfin x (List.mem_of_mem_drop (List.mem_of_mem_take hx))

/-- Counting the range positions at or past a threshold. -/
theorem length_filter_range_le (n m : ℕ) :
    ((List.range n).filter fun i => decide (m ≤ i)).length = n - m := by
  induction n with
  | zero => simp
  | succ n ih =>
    rw [List.range_succ, List.filter_append, List.length_append, ih]
    by_cases h : m ≤ n
    · simp [List.filter, h]
      omega
    · simp [List.filter, h]
      omega

/-- Over an all-finite close series, the slow rolling mean loses exactly
its `w - 1` warm-up rows to `dropna`. -/
theorem validIdx_rollingMean (w : ℕ) (xs : List PFloat) (hw : 1 ≤ w)
    (hfin : ∀ x ∈ xs, x.isFinite = true) :
    (validIdx (rollingMean w xs)).length = xs.length - (w - 1) := by
  unfold validIdx
  have hlen : (rollingMean w xs).length = xs.length := by
    unfold rollingMean
    rw [List.length_map, List.length_range]
  rw [hlen]
  rw [List.filter_congr (q := fun i => decide (w - 1 ≤ i)) ?_]
  · exact length_filter_range_le xs.length (w - 1)
  · intro i hi
    rw [rollingMean_getD_isNaN w xs hw hfin i (List.mem_range.mp hi)]
    by_cases hc : i + 1 < w
    · have : ¬(w - 1 ≤ i) := by omega
      simp [hc, this]
    · have : w - 1 ≤ i := by omega
      simp [hc, this]

/-- C10 amended: when the close column is all finite (no NaN and no
infinities), `0 <= fast_period < slow_period` (so the rolling windows
are accepted and `slow_period >= 1`) and
`len(data) >= slow_period + 20`, the slow moving average keeps
`len(data) - slow_period + 1 >= 21` valid rows, so the
`len(fast_ma) < 20` guard is false and its `-inf` return unreachable. -/
theorem finite_close_guard_unreachable (d : DataFrame) (fp sp : ℤ)
    (hfin : ∀ x ∈ d.close, x.isFinite = true)
    (hfp : 0 ≤ fp) (hlt : fp < sp) (hlen : sp + 20 ≤ (d.len : ℤ)) :
    ¬((selectAt (rollingMean fp.toNat d.close)
        (validIdx (rollingMean sp.toNat d.close))).length < 20) := by
  rw [selectAt_length]
  rw [validIdx_rollingMean sp.toNat d.close (by omega) hfin]
  unfold DataFrame.len at hlen
  omega

/-- Witness for the amended C10: 22 constant finite closes,
`fast_period = 1`, `slow_period = 2`. -/
theorem finite_close_guard_unreachable_witness :
    (∀ x ∈ (List.replicate 22 (PFloat.fin 1)), x.isFinite = true)
    ∧ (0 : ℤ) ≤ 1 ∧ (1 : ℤ) < 2
    ∧ (2 : ℤ) + 20 ≤ ((DataFrame.mk (List.replicate 22 (PFloat.fin 1)) []).len : ℤ)
    ∧ ¬((selectAt (rollingMean (1 : ℤ).toNat (List.replicate 22 (PFloat.fin 1)))
        (validIdx (rollingMean (2 : ℤ).toNat
          (List.replicate 22 (PFloat.fin 1))))).length < 20) :=
  ⟨by decide, by decide, by decide, by decide,
    finite_close_guard_unreachable (DataFrame.mk (List.replicate 22 (PFloat.fin 1)) [])
      1 2 (by decide) (by decide) (by decide) (by decide)⟩

/-- 22 close prices alternating between `+inf` and `-inf`: no entry is
NaN, yet every width-2 window mixes the two infinities. -/
def altInfClose : List PFloat :=
  (List.range 22).map fun i => if i % 2 = 0 then .inf else .ninf

/-- Counterexample to C10 as stated: a close column with no missing
(NaN) value, `fast_period = 1 < 2 = slow_period` and
`len(data) = 22 >= slow_period + 20`, on which every slow-moving-average
entry is NaN (`inf + (-inf)` inside each window), so the
`len(fast_ma) < 20` guard is true and the call returns `-inf` through
that branch. -/
theorem no_nan_close_guard_counterexample :
    (∀ x ∈ altInfClose, x.isNaN = false)
    ∧ altInfClose.length = 22
    ∧ (2 : ℤ) + 20 ≤ ((DataFrame.mk altInfClose []).len : ℤ)
    ∧ (1 : ℤ) < 2
    ∧ (selectAt (rollingMean (1 : ℤ).toNat altInfClose)
        (validIdx (rollingMean (2 : ℤ).toNat altInfClose))).length < 20
    ∧ evaluate_moving_average_strategy (DataFrame.mk altInfClose [])
        [("fast_period", ParamVal.num (.fin 1)), ("slow_period", ParamVal.num (.fin 2))]
      = .ok .ninf := by
  refine ⟨by decide, by decide, by decide, by decide, by decide, by decide⟩
